import Mathlib

/-!
Shallow embedding of the core prediction-lifecycle and adaptive-scoring
engine of the polymarket-btc-predictor repository, together with theorems
settling the specification claims about it.

Sources embedded (all rational arithmetic models the Python floats):
* `btc_predictor.py` — `BTCPredictor.generate_prediction`,
  `BTCPredictor.predict_next_movement` (technical-only path, sentiment
  analyzer disabled), and the hard-coded weights / confidence threshold
  set in `BTCPredictor.__init__`.
* `periodic_evaluation.py` — the outcome classification inside
  `perform_evaluation_cycle`.
* `prediction_manager.py` — `record_actual_outcome`,
  `record_prediction_for_evaluation`, `get_pending_evaluations`.
* `self_learning_module.py` — `_is_prediction_correct`,
  `_classify_error_type`, `_indicator_aligned_with_outcome`,
  `_adjust_indicator_weights`, `_sentiment_aligned_with_outcome`,
  `_adjust_sentiment_weight`, `_adjust_confidence_threshold`,
  `_adjust_strategy`, and the default strategy configuration of
  `_load_strategy_config`.
-/

namespace BTCPred

/-- Direction of a prediction or realized outcome (the strings
`'UP'`, `'DOWN'`, `'HOLD'` of the Python code). -/
inductive Direction where
  | UP
  | DOWN
  | HOLD
deriving DecidableEq

/-- `np.clip(x, -1, 1)` as used in `generate_prediction`. -/
def clip (x : ℚ) : ℚ := max (-1) (min 1 x)

/-- The indicator snapshot consumed by `generate_prediction`
(the dict returned by `analyze_technical_indicators`). -/
structure Indicators where
  rsi : ℚ
  macd_histogram : ℚ
  ma_trend : ℚ
  volume_indicator : ℚ
  bollinger_position : ℚ
  momentum : ℚ
deriving DecidableEq

/-- The per-indicator weights `self.weights` of `BTCPredictor`. -/
structure Weights where
  rsi : ℚ
  macd : ℚ
  ma_trend : ℚ
  volume : ℚ
  bollinger : ℚ
deriving DecidableEq

/-- The hard-coded `self.weights` set in `BTCPredictor.__init__`:
rsi 0.25, macd 0.25, ma_trend 0.2, volume 0.15, bollinger 0.15. -/
def initWeights : Weights :=
  { rsi := 1/4, macd := 1/4, ma_trend := 1/5, volume := 3/20, bollinger := 3/20 }

/-- The hard-coded `self.confidence_threshold = 0.6` of `BTCPredictor.__init__`. -/
def initConfidenceThreshold : ℚ := 3/5

/-- The weighted composite score accumulated in
`BTCPredictor.generate_prediction` (btc_predictor.py lines 263-292). -/
def predictionScore (w : Weights) (ind : Indicators) : ℚ :=
  (if ind.rsi < 30 then w.rsi * 1
   else if ind.rsi > 70 then -(w.rsi * 1)
   else w.rsi * 0)
  + w.macd * clip (ind.macd_histogram * 5)
  + w.ma_trend * clip (ind.ma_trend * 10)
  + w.volume * clip (ind.volume_indicator * 10)
  + (if ind.bollinger_position < 1/5 then w.bollinger * 1
     else if ind.bollinger_position > 4/5 then -(w.bollinger * 1)
     else w.bollinger * 0)
  + (1/10) * clip (ind.momentum * 10)

/-- `BTCPredictor.generate_prediction`: returns (direction, confidence) with
`confidence = min(abs(score), 1.0)` and `direction = "UP" if score > 0 else "DOWN"`. -/
def generate_prediction (w : Weights) (ind : Indicators) : Direction × ℚ :=
  let score := predictionScore w ind
  ((if score > 0 then Direction.UP else Direction.DOWN), min |score| 1)

/-- The published prediction of `BTCPredictor.predict_next_movement` on the
technical-only path (no sentiment analyzer): `final_confidence = confidence`,
`final_direction = direction`, and the direction is forced to `'HOLD'` when
`final_confidence < self.confidence_threshold` (btc_predictor.py lines 335-349). -/
def predict_next_movement (w : Weights) (confidence_threshold : ℚ)
    (ind : Indicators) : Direction × ℚ :=
  let final_confidence := (generate_prediction w ind).2
  let final_direction := (generate_prediction w ind).1
  if final_confidence < confidence_threshold then (Direction.HOLD, final_confidence)
  else (final_direction, final_confidence)

/-- `price_change = (current_price - prediction_price) / prediction_price`
(periodic_evaluation.py line 65). -/
def price_change (current_price prediction_price : ℚ) : ℚ :=
  (current_price - prediction_price) / prediction_price

/-- The outcome classification of `perform_evaluation_cycle`
(periodic_evaluation.py lines 67-74): threshold 0.005, `HOLD` when
`abs(price_change) < threshold`, `UP` when `price_change > threshold`,
else `DOWN`. -/
def classify_actual_direction (pc : ℚ) : Direction :=
  if |pc| < 1/200 then Direction.HOLD
  else if pc > 1/200 then Direction.UP
  else Direction.DOWN

/-- The `strategy_config` dict of `SelfLearningModule`. `indicator_weights`
is an insertion-ordered key-value list because `_adjust_indicator_weights`
may add keys beyond the five defaults (it writes back under the names found
in the per-record indicator snapshots). -/
structure StrategyConfig where
  indicator_weights : List (String × ℚ)
  sentiment_weight : ℚ
  confidence_threshold : ℚ
  learning_rate : ℚ
  adjustment_sensitivity : ℚ
deriving DecidableEq

/-- The default configuration created by
`SelfLearningModule._load_strategy_config` (self_learning_module.py lines
52-64). -/
def defaultStrategyConfig : StrategyConfig :=
  { indicator_weights :=
      [("rsi", 1/4), ("macd", 1/4), ("ma_trend", 1/5),
       ("volume", 3/20), ("bollinger", 3/20)],
    sentiment_weight := 3/10,
    confidence_threshold := 3/5,
    learning_rate := 1/10,
    adjustment_sensitivity := 1/20 }

/-- The fields of a performance-log record that the adjustment functions
read: the per-record indicator snapshot (name-value pairs), the actual
direction, `sentiment_analysis['combined_sentiment']` (`none` when the
record has no sentiment data), `technical_analysis['direction']`,
`predicted_confidence`, and `analysis['is_correct']`. -/
structure LearnRecord where
  indicators : List (String × ℚ)
  actual_direction : Direction
  combined_sentiment : Option ℚ
  technical_direction : Direction
  predicted_confidence : ℚ
  is_correct : Bool
deriving DecidableEq

/-- `SelfLearningModule._indicator_aligned_with_outcome`
(self_learning_module.py lines 383-421). -/
def indicator_aligned_with_outcome (name : String) (value : ℚ)
    (actual : Direction) : Bool :=
  if actual = Direction.HOLD then true
  else if name = "rsi" then
    (decide (actual = Direction.UP) && decide (value < 40)) ||
    (decide (actual = Direction.DOWN) && decide (value > 60))
  else if name = "macd_histogram" then
    (decide (actual = Direction.UP) && decide (value > 0)) ||
    (decide (actual = Direction.DOWN) && decide (value < 0))
  else if name = "ma_trend" then
    (decide (actual = Direction.UP) && decide (value > 0)) ||
    (decide (actual = Direction.DOWN) && decide (value < 0))
  else if name = "bollinger_position" then
    (decide (actual = Direction.UP) && decide (value < 3/10)) ||
    (decide (actual = Direction.DOWN) && decide (value > 7/10))
  else if name = "momentum" then
    (decide (actual = Direction.UP) && decide (value > 0)) ||
    (decide (actual = Direction.DOWN) && decide (value < 0))
  else false

/-- One entry of the `indicator_performance` accumulator of
`_adjust_indicator_weights` (`sum_abs_value` is accumulated by the source
but never read afterwards). -/
structure IndicatorPerf where
  correct_count : Nat
  total_count : Nat
  sum_abs_value : ℚ
deriving DecidableEq

/-- One update of the `indicator_performance` dict for a single
(indicator name, value, actual direction) observation. -/
def bumpPerf (acc : List (String × IndicatorPerf)) (name : String)
    (aligned : Bool) (absValue : ℚ) : List (String × IndicatorPerf) :=
  if acc.any (fun kv => decide (kv.1 = name)) then
    acc.map (fun kv => if kv.1 = name then
      (kv.1,
        { correct_count := kv.2.correct_count + (if aligned then 1 else 0),
          total_count := kv.2.total_count + 1,
          sum_abs_value := kv.2.sum_abs_value + absValue })
      else kv)
  else
    acc ++ [(name,
      { correct_count := if aligned then 1 else 0,
        total_count := 1,
        sum_abs_value := absValue })]

/-- The double loop of `_adjust_indicator_weights` (self_learning_module.py
lines 346-365) building `indicator_performance` from the records. -/
def collectIndicatorPerformance (records : List LearnRecord) :
    List (String × IndicatorPerf) :=
  records.foldl (fun acc r =>
    r.indicators.foldl (fun acc2 nv =>
      bumpPerf acc2 nv.1
        (indicator_aligned_with_outcome nv.1 nv.2 r.actual_direction)
        |nv.2|) acc) []

/-- Python dict assignment `weights[name] = v`: replace in place when the
key exists, append otherwise. -/
def setWeight (ws : List (String × ℚ)) (name : String) (v : ℚ) :
    List (String × ℚ) :=
  if ws.any (fun kv => decide (kv.1 = name)) then
    ws.map (fun kv => if kv.1 = name then (kv.1, v) else kv)
  else ws ++ [(name, v)]

/-- `weights.get(name, dflt)`. -/
def getWeight (ws : List (String × ℚ)) (name : String) (dflt : ℚ) : ℚ :=
  match ws.find? (fun kv => decide (kv.1 = name)) with
  | some kv => kv.2
  | none => dflt

/-- The body of the weight-update loop of `_adjust_indicator_weights`
(self_learning_module.py lines 370-381) for one `indicator_performance`
entry: when `total_count > 0`,
`new_weight = max(0.05, min(0.5, current + (accuracy - 0.5) * learning_rate))`
with `current = indicator_weights.get(name, 0.2)`. -/
def indicatorWeightStep (lr : ℚ) (ws : List (String × ℚ))
    (p : String × IndicatorPerf) : List (String × ℚ) :=
  if p.2.total_count > 0 then
    let accuracy : ℚ := (p.2.correct_count : ℚ) / (p.2.total_count : ℚ)
    let adjustment := (accuracy - 1/2) * lr
    let current := getWeight ws p.1 (1/5)
    setWeight ws p.1 (max (1/20) (min (1/2) (current + adjustment)))
  else ws

/-- `SelfLearningModule._adjust_indicator_weights` (self_learning_module.py
lines 342-381): build `indicator_performance`, then run the weight-update
loop over its entries. -/
def adjust_indicator_weights (cfg : StrategyConfig)
    (records : List LearnRecord) : StrategyConfig :=
  { cfg with
    indicator_weights :=
      (collectIndicatorPerformance records).foldl
        (indicatorWeightStep cfg.learning_rate) cfg.indicator_weights }

/-- `SelfLearningModule._sentiment_aligned_with_outcome`
(self_learning_module.py lines 473-485). -/
def sentiment_aligned_with_outcome (sentiment_score : ℚ)
    (actual : Direction) : Bool :=
  if actual = Direction.HOLD then decide (|sentiment_score| < 1/5)
  else
    (decide (actual = Direction.UP) && decide (sentiment_score > 0)) ||
    (decide (actual = Direction.DOWN) && decide (sentiment_score < 0))

/-- The counting loop of `_adjust_sentiment_weight` (self_learning_module.py
lines 431-454): `(helpful_count, total_count)`. Records without sentiment
data are skipped; the helpful condition is the source's disjunction
`(not tech_correct and sentiment_aligned) or (tech_correct and sentiment_aligned)`. -/
def sentimentHelpfulCounts (records : List LearnRecord) : Nat × Nat :=
  records.foldl (fun (hc_tc : Nat × Nat) r =>
    match r.combined_sentiment with
    | none => hc_tc
    | some sent =>
      let sentiment_aligned :=
        sentiment_aligned_with_outcome sent r.actual_direction
      let tech_correct :=
        decide (r.technical_direction = r.actual_direction)
      let helpful := (!tech_correct && sentiment_aligned) ||
        (tech_correct && sentiment_aligned)
      (hc_tc.1 + (if helpful then 1 else 0), hc_tc.2 + 1)) (0, 0)

/-- The target sentiment weight of `_adjust_sentiment_weight`
(self_learning_module.py lines 460-469): nudge up toward 0.5 when
`helpful_ratio > 0.6`, down toward 0.1 when `< 0.4`, else unchanged. -/
def sentimentTarget (current lr helpful_frac : ℚ) : ℚ :=
  if helpful_frac > 3/5 then min (1/2) (current + (helpful_frac - 1/2) * lr)
  else if helpful_frac < 2/5 then max (1/10) (current - (1/2 - helpful_frac) * lr)
  else current

/-- `SelfLearningModule._adjust_sentiment_weight` (self_learning_module.py
lines 423-471). -/
def adjust_sentiment_weight (cfg : StrategyConfig)
    (records : List LearnRecord) : StrategyConfig :=
  if records = [] then cfg
  else if (sentimentHelpfulCounts records).2 > 0 then
    { cfg with
      sentiment_weight :=
        sentimentTarget cfg.sentiment_weight cfg.learning_rate
          (((sentimentHelpfulCounts records).1 : ℚ) /
            ((sentimentHelpfulCounts records).2 : ℚ)) }
  else cfg

/-- `high_conf_total` of `_adjust_confidence_threshold`: records with
`predicted_confidence >= 0.7`. The source's single loop accumulating the
four counters is expressed as one `countP` per counter. -/
def highConfTotal (records : List LearnRecord) : Nat :=
  records.countP (fun r => decide (7/10 ≤ r.predicted_confidence))

/-- `high_conf_correct` of `_adjust_confidence_threshold`. -/
def highConfCorrect (records : List LearnRecord) : Nat :=
  records.countP (fun r => decide (7/10 ≤ r.predicted_confidence) && r.is_correct)

/-- `low_conf_total` of `_adjust_confidence_threshold`: the `elif` branch,
records with `predicted_confidence <= 0.3` (and not `>= 0.7`). -/
def lowConfTotal (records : List LearnRecord) : Nat :=
  records.countP (fun r => !decide (7/10 ≤ r.predicted_confidence) &&
    decide (r.predicted_confidence ≤ 3/10))

/-- `low_conf_correct` of `_adjust_confidence_threshold`. -/
def lowConfCorrect (records : List LearnRecord) : Nat :=
  records.countP (fun r => !decide (7/10 ≤ r.predicted_confidence) &&
    decide (r.predicted_confidence ≤ 3/10) && r.is_correct)

/-- `SelfLearningModule._adjust_confidence_threshold` (self_learning_module.py
lines 487-523): skip below 5 records; with both a high-confidence and a
low-confidence population, lower the threshold by 0.05 (floor 0.4) when the
low-confidence accuracy beats the high-confidence accuracy and exceeds 0.6,
raise it by 0.05 (ceiling 0.8) when the high-confidence accuracy is below
0.6, else leave it unchanged. -/
def adjust_confidence_threshold (cfg : StrategyConfig)
    (records : List LearnRecord) : StrategyConfig :=
  if records.length < 5 then cfg
  else if highConfTotal records > 0 ∧ lowConfTotal records > 0 then
    if (lowConfCorrect records : ℚ) / (lowConfTotal records : ℚ) >
         (highConfCorrect records : ℚ) / (highConfTotal records : ℚ) ∧
       (lowConfCorrect records : ℚ) / (lowConfTotal records : ℚ) > 3/5 then
      { cfg with
        confidence_threshold := max (2/5) (cfg.confidence_threshold - 1/20) }
    else if (highConfCorrect records : ℚ) / (highConfTotal records : ℚ) < 3/5 then
      { cfg with
        confidence_threshold := min (4/5) (cfg.confidence_threshold + 1/20) }
    else cfg
  else cfg

/-- `SelfLearningModule._adjust_strategy` (self_learning_module.py lines
315-340): skipped when fewer than 10 records, otherwise the three
adjustments run in source order on the same window. -/
def adjust_strategy (cfg : StrategyConfig) (records : List LearnRecord) :
    StrategyConfig :=
  if records.length < 10 then cfg
  else
    adjust_confidence_threshold
      (adjust_sentiment_weight
        (adjust_indicator_weights cfg records) records) records

/-- `SelfLearningModule._is_prediction_correct` (self_learning_module.py
lines 157-169). -/
def is_prediction_correct (predicted actual : Direction)
    (pc : Option ℚ) : Bool :=
  if predicted = Direction.HOLD then
    match pc with
    | some c => decide (|c| < 1/100)
    | none => decide (predicted = actual)
  else decide (predicted = actual)

/-- `SelfLearningModule._classify_error_type` (self_learning_module.py lines
227-242). -/
def classify_error_type (predicted actual : Direction) : String :=
  if predicted = actual then "correct_prediction"
  else if predicted = Direction.HOLD ∧
      (actual = Direction.UP ∨ actual = Direction.DOWN) then
    "missed_opportunity"
  else if (predicted = Direction.UP ∨ predicted = Direction.DOWN) ∧
      actual = Direction.HOLD then
    "false_signal"
  else if predicted = Direction.UP ∧ actual = Direction.DOWN then
    "direction_inverted_UP_to_DOWN"
  else if predicted = Direction.DOWN ∧ actual = Direction.UP then
    "direction_inverted_DOWN_to_UP"
  else "other_error"

/-- The combined state of the running system: the `BTCPredictor` instance's
own prediction parameters (set once in `__init__`) and the learning module's
strategy configuration. -/
structure SystemState where
  predictor_weights : Weights
  predictor_confidence_threshold : ℚ
  learning_config : StrategyConfig
deriving DecidableEq

/-- The state after `BTCPredictor.__init__` constructs the learning module
with the default configuration. -/
def initSystemState : SystemState :=
  { predictor_weights := initWeights,
    predictor_confidence_threshold := initConfidenceThreshold,
    learning_config := defaultStrategyConfig }

/-- The learning pass triggered from `record_actual_outcome` via
`record_prediction_result` -> `_adjust_strategy`: it mutates only the
learning module's `strategy_config`; nothing writes back into the
predictor's `self.weights` or `self.confidence_threshold`. -/
def learning_update (s : SystemState) (records : List LearnRecord) :
    SystemState :=
  { s with learning_config := adjust_strategy s.learning_config records }

/-- Prediction generation on the running system: `predict_next_movement`
reads `self.weights` and `self.confidence_threshold` of the predictor. -/
def system_predict (s : SystemState) (ind : Indicators) : Direction × ℚ :=
  predict_next_movement s.predictor_weights
    s.predictor_confidence_threshold ind

/-- An analyzed record with actual direction HOLD (every indicator counts as
aligned), no sentiment data, and mid confidence 0.5: ten of these form an
adjustment window that raises the rsi indicator weight. -/
def c3Record : LearnRecord :=
  { indicators := [("rsi", 25)],
    actual_direction := Direction.HOLD,
    combined_sentiment := none,
    technical_direction := Direction.HOLD,
    predicted_confidence := 1/2,
    is_correct := true }

/-- Equal weights 0.2 for the C6 scenario. -/
def c6Weights : Weights :=
  { rsi := 1/5, macd := 1/5, ma_trend := 1/5, volume := 1/5, bollinger := 1/5 }

/-- The C6 scenario indicator snapshot: RSI 25, MACD histogram 0.02,
MA trend 0.01, volume 0, Bollinger position 0.15, momentum 0. -/
def c6Indicators : Indicators :=
  { rsi := 25, macd_histogram := 1/50, ma_trend := 1/100,
    volume_indicator := 0, bollinger_position := 3/20, momentum := 0 }

/-- The prediction record stored by `PredictionManager`: the fields of the
`prediction` dict that the store and evaluation code read. The identifier is
`prediction['timestamp']`; generation times are modelled in minutes. -/
structure PredictionData where
  timestamp : ℚ
  prediction : Direction
  confidence : ℚ
  current_price : ℚ
  prediction_window_minutes : ℚ
deriving DecidableEq

/-- The `actual_outcome` dict written by `record_actual_outcome`
(the `recorded_at` timestamp is not modelled). -/
structure OutcomeRecord where
  direction : Direction
  price_change : ℚ
  current_price : ℚ
deriving DecidableEq

/-- One value of the `prediction_outcomes` dict: a prediction together with
its outcome, `none` while pending. -/
structure StoredEntry where
  prediction : PredictionData
  actual_outcome : Option OutcomeRecord
deriving DecidableEq

/-- The `prediction_outcomes` dict of `PredictionManager`, as an
insertion-ordered key-value list (keys are the prediction timestamps). -/
abbrev Store := List (ℚ × StoredEntry)

/-- `PredictionManager.record_actual_outcome` (prediction_manager.py lines
52-78), restricted to its effect on the store: when the identifier is present
the `actual_outcome` field is assigned unconditionally (no check that it is
still `None`) and the method returns `True`; when absent the store is
unchanged and it returns `False`. The call into the learning module is
modelled separately (see `learning_update`). -/
def record_actual_outcome (s : Store) (id : ℚ) (o : OutcomeRecord) :
    Store × Bool :=
  if s.any (fun kv => decide (kv.1 = id)) then
    (s.map (fun kv => if kv.1 = id then
        (kv.1, { kv.2 with actual_outcome := some o }) else kv), true)
  else (s, false)

/-- `PredictionManager.record_prediction_for_evaluation`
(prediction_manager.py lines 80-95): the entry is added only if the
identifier is not already a key; otherwise the store is left unchanged. -/
def record_prediction_for_evaluation (s : Store) (p : PredictionData) : Store :=
  if s.any (fun kv => decide (kv.1 = p.timestamp)) then s
  else s ++ [(p.timestamp, { prediction := p, actual_outcome := none })]

/-- `PredictionManager.get_pending_evaluations` (prediction_manager.py lines
104-116): entries whose `actual_outcome` is `None` and whose
`eval_time = pred_time + (window + 5 minutes)` satisfies `now >= eval_time`.
`now` is passed explicitly in place of `datetime.now()`. -/
def get_pending_evaluations (s : Store) (now : ℚ) : Store :=
  s.filter (fun kv =>
    decide (kv.2.actual_outcome = none) &&
    decide (kv.2.prediction.timestamp +
      (kv.2.prediction.prediction_window_minutes + 5) ≤ now))

/-- Concrete prediction for counterexamples and witnesses. -/
def cPred : PredictionData :=
  { timestamp := 0, prediction := Direction.UP, confidence := 1/2,
    current_price := 100, prediction_window_minutes := 15 }

/-- A first outcome (UP, +1%). -/
def cOut1 : OutcomeRecord :=
  { direction := Direction.UP, price_change := 1/100, current_price := 101 }

/-- A second, different outcome (DOWN, -2%). -/
def cOut2 : OutcomeRecord :=
  { direction := Direction.DOWN, price_change := -(1/50), current_price := 98 }

/-- A store holding `cPred` with the first outcome already recorded. -/
def cStoreEvaluated : Store :=
  [(0, { prediction := cPred, actual_outcome := some cOut1 })]

/-- C2: at a realized price change of exactly +0.005 (reference price 1000,
current price 1005) the classifier returns DOWN, not UP: `abs(pc) < 0.005`
fails and `pc > 0.005` also fails, so the `else` (DOWN) branch is taken.
A change of exactly -0.005 is classified DOWN as the claim states. -/
theorem C2_boundary_evaluation :
    price_change 1005 1000 = 1/200 ∧
    classify_actual_direction (price_change 1005 1000) = Direction.DOWN ∧
    classify_actual_direction (1/200) ≠ Direction.UP ∧
    classify_actual_direction (-(1/200)) = Direction.DOWN ∧
    classify_actual_direction (49/10000) = Direction.HOLD ∧
    classify_actual_direction (51/10000) = Direction.UP := by
  refine ⟨by norm_num [price_change], ?_, ?_, ?_, ?_, ?_⟩ <;>
    simp [classify_actual_direction, price_change, abs] <;> norm_num

/-- C6 counterexample: on the scenario input (equal weights 0.2, threshold
0.5) the composite score is 0.44, hence the confidence is 0.44 < 0.5, and the
published direction is HOLD — contradicting "confidence at least 0.5 and
direction UP". -/
theorem C6_counterexample :
    (generate_prediction c6Weights c6Indicators).2 = 11/25 ∧
    ¬ (1/2 : ℚ) ≤ (generate_prediction c6Weights c6Indicators).2 ∧
    (predict_next_movement c6Weights (1/2) c6Indicators).1 = Direction.HOLD := by
  refine ⟨?_, ?_, ?_⟩ <;>
    norm_num [generate_prediction, predict_next_movement, predictionScore,
      c6Weights, c6Indicators, clip, abs]

/-- C6 amended: on the scenario input the composite score is 0.44 > 0, the
technical direction before thresholding is UP with confidence 0.44, and since
0.44 is below the 0.5 threshold the published direction is HOLD. -/
theorem C6_amended_scenario :
    predictionScore c6Weights c6Indicators = 11/25 ∧
    0 < predictionScore c6Weights c6Indicators ∧
    generate_prediction c6Weights c6Indicators = (Direction.UP, 11/25) ∧
    predict_next_movement c6Weights (1/2) c6Indicators = (Direction.HOLD, 11/25) := by
  refine ⟨?_, ?_, ?_, ?_⟩ <;>
    norm_num [generate_prediction, predict_next_movement, predictionScore,
      c6Weights, c6Indicators, clip, abs]

/-- C5: for every weight configuration, threshold and indicator input, the
published confidence equals `min(abs(score), 1.0)` and lies in [0, 1]; the
published direction is HOLD whenever the confidence is below the threshold,
and otherwise it is UP when the composite score is positive and DOWN when it
is negative. -/
theorem C5_confidence_bounds_and_hold (w : Weights) (t : ℚ) (ind : Indicators) :
    (predict_next_movement w t ind).2 = min |predictionScore w ind| 1 ∧
    0 ≤ (predict_next_movement w t ind).2 ∧
    (predict_next_movement w t ind).2 ≤ 1 ∧
    ((predict_next_movement w t ind).2 < t →
      (predict_next_movement w t ind).1 = Direction.HOLD) ∧
    (t ≤ (predict_next_movement w t ind).2 →
      (0 < predictionScore w ind →
        (predict_next_movement w t ind).1 = Direction.UP) ∧
      (predictionScore w ind < 0 →
        (predict_next_movement w t ind).1 = Direction.DOWN)) := by
  by_cases h : min |predictionScore w ind| 1 < t
  · have hd : predict_next_movement w t ind =
        (Direction.HOLD, min |predictionScore w ind| 1) := by
      unfold predict_next_movement generate_prediction
      rw [if_pos h]
    rw [hd]
    refine ⟨rfl, le_min (abs_nonneg _) zero_le_one, min_le_right _ _,
      fun _ => rfl, fun hge => absurd h (not_lt.mpr hge)⟩
  · have hd : predict_next_movement w t ind =
        ((if predictionScore w ind > 0 then Direction.UP else Direction.DOWN),
          min |predictionScore w ind| 1) := by
      unfold predict_next_movement generate_prediction
      rw [if_neg h]
    rw [hd]
    refine ⟨rfl, le_min (abs_nonneg _) zero_le_one, min_le_right _ _,
      fun hlt => absurd hlt h, fun _ => ⟨fun hpos => ?_, fun hneg => ?_⟩⟩
    · simp only [if_pos hpos]
    · simp only [if_neg (not_lt.mpr (le_of_lt hneg))]

/-- C5 witness: on the C6 scenario input with threshold 0.5 the confidence
0.44 is below the threshold, so the published direction is HOLD. -/
theorem C5_witness :
    (predict_next_movement c6Weights (1/2) c6Indicators).2 < 1/2 ∧
    (predict_next_movement c6Weights (1/2) c6Indicators).1 = Direction.HOLD := by
  have h : (predict_next_movement c6Weights (1/2) c6Indicators).2 < 1/2 := by
    norm_num [predict_next_movement, generate_prediction, predictionScore,
      c6Weights, c6Indicators, clip, abs]
  exact ⟨h, (C5_confidence_bounds_and_hold c6Weights (1/2) c6Indicators).2.2.2.1 h⟩

/-- C1 counterexample: recording a second outcome for a prediction that
already has one returns `True` (the claim says `False`) and overwrites the
first outcome with the second (the claim says the store keeps the first). -/
theorem C1_counterexample :
    (record_actual_outcome cStoreEvaluated 0 cOut2).2 = true ∧
    (record_actual_outcome cStoreEvaluated 0 cOut2).1 =
      [(0, { prediction := cPred, actual_outcome := some cOut2 })] := by
  constructor <;> rfl

/-- C1 amended: `record_actual_outcome` returns `False` and leaves the store
unchanged exactly when the prediction identifier is unknown; when the
identifier is present it returns `True` and records the outcome
unconditionally, overwriting any previously recorded outcome, so the store
holds the most recently recorded outcome. -/
theorem C1_record_outcome_amended (s : Store) (id : ℚ) (o : OutcomeRecord) :
    (s.any (fun kv => decide (kv.1 = id)) = false →
      record_actual_outcome s id o = (s, false)) ∧
    (s.any (fun kv => decide (kv.1 = id)) = true →
      (record_actual_outcome s id o).2 = true ∧
      ∀ kv ∈ (record_actual_outcome s id o).1, kv.1 = id →
        kv.2.actual_outcome = some o) := by
  constructor
  · intro h
    unfold record_actual_outcome
    simp [h]
  · intro h
    have hd : record_actual_outcome s id o =
        (s.map (fun kv => if kv.1 = id then
          (kv.1, { kv.2 with actual_outcome := some o }) else kv), true) := by
      unfold record_actual_outcome
      simp [h]
    rw [hd]
    refine ⟨rfl, ?_⟩
    intro kv hkv hid
    simp only [List.mem_map] at hkv
    obtain ⟨kv0, _, hmap⟩ := hkv
    by_cases hk : kv0.1 = id
    · rw [if_pos hk] at hmap
      rw [← hmap]
    · rw [if_neg hk] at hmap
      rw [← hmap] at hid
      exact absurd hid hk

/-- C1 witness: at concrete inputs, an unknown identifier yields
`(store, False)`, and a known identifier yields `True` with the stored
outcome equal to the newly recorded one. -/
theorem C1_amended_witness :
    record_actual_outcome cStoreEvaluated 1 cOut2 = (cStoreEvaluated, false) ∧
    (record_actual_outcome cStoreEvaluated 0 cOut2).2 = true :=
  ⟨(C1_record_outcome_amended cStoreEvaluated 1 cOut2).1 (by decide),
   ((C1_record_outcome_amended cStoreEvaluated 0 cOut2).2 (by decide)).1⟩

/-- Helper: inserting when the identifier is already a key is a no-op. -/
lemma record_prediction_noop (s : Store) (p : PredictionData)
    (h : s.any (fun kv => decide (kv.1 = p.timestamp)) = true) :
    record_prediction_for_evaluation s p = s := by
  unfold record_prediction_for_evaluation
  simp [h]

/-- Helper: after inserting a prediction, its identifier is a key. -/
lemma record_prediction_mem (s : Store) (p : PredictionData) :
    (record_prediction_for_evaluation s p).any
      (fun kv => decide (kv.1 = p.timestamp)) = true := by
  unfold record_prediction_for_evaluation
  by_cases h : s.any (fun kv => decide (kv.1 = p.timestamp)) = true
  · simp [h]
  · simp [h]

/-- C9: insertion is idempotent on the identifier: inserting a prediction
whose identifier is already a key leaves the store unchanged, and inserting
the same prediction twice yields the same store as inserting it once. -/
theorem C9_insert_idempotent (s : Store) (p : PredictionData) :
    (s.any (fun kv => decide (kv.1 = p.timestamp)) = true →
      record_prediction_for_evaluation s p = s) ∧
    record_prediction_for_evaluation (record_prediction_for_evaluation s p) p =
      record_prediction_for_evaluation s p :=
  ⟨record_prediction_noop s p,
   record_prediction_noop _ p (record_prediction_mem s p)⟩

/-- C9 witness: at concrete inputs, inserting into a store that already has
the identifier is a no-op, and a double insert into the empty store equals a
single insert. -/
theorem C9_witness :
    record_prediction_for_evaluation cStoreEvaluated cPred = cStoreEvaluated ∧
    record_prediction_for_evaluation
        (record_prediction_for_evaluation [] cPred) cPred =
      record_prediction_for_evaluation [] cPred :=
  ⟨(C9_insert_idempotent cStoreEvaluated cPred).1 (by decide),
   (C9_insert_idempotent [] cPred).2⟩

/-- C7: an entry is returned by the ready-for-evaluation scan exactly when it
is stored, has no outcome yet, and `now ≥ generated_at + window + 5`-minute
buffer has elapsed. -/
theorem C7_ready_for_evaluation (s : Store) (kv : ℚ × StoredEntry) (now : ℚ) :
    kv ∈ get_pending_evaluations s now ↔
      kv ∈ s ∧ kv.2.actual_outcome = none ∧
        kv.2.prediction.timestamp +
          (kv.2.prediction.prediction_window_minutes + 5) ≤ now := by
  unfold get_pending_evaluations
  simp [List.mem_filter, and_assoc]

/-- The stored entry for the C7 scenario: generated at T = 0 with a
15-minute window and no outcome yet. -/
def c7Entry : ℚ × StoredEntry :=
  (0, { prediction := cPred, actual_outcome := none })

/-- C7 witness: the scenario prediction (window 15, buffer 5) is absent from
the scan at T+19 minutes and present at T+20 minutes. -/
theorem C7_witness :
    c7Entry ∈ get_pending_evaluations [c7Entry] 20 ∧
    c7Entry ∉ get_pending_evaluations [c7Entry] 19 := by
  constructor
  · refine (C7_ready_for_evaluation [c7Entry] c7Entry 20).mpr
      ⟨List.mem_singleton.mpr rfl, rfl, ?_⟩
    norm_num [c7Entry, cPred]
  · intro h
    have h2 := ((C7_ready_for_evaluation [c7Entry] c7Entry 19).mp h).2.2
    simp only [c7Entry, cPred] at h2
    norm_num at h2

/-- C8: an UP/DOWN prediction is correct exactly when the directions match;
a HOLD prediction is correct exactly when the realized absolute price change
is below 1%; a HOLD prediction against a realized change of 0.3% is correct,
while against 2% it is incorrect and classified as a missed opportunity. -/
theorem C8_correctness_and_error_class (predicted actual : Direction) (pc : ℚ) :
    (predicted ≠ Direction.HOLD →
      (is_prediction_correct predicted actual (some pc) = true ↔
        predicted = actual)) ∧
    (is_prediction_correct Direction.HOLD actual (some pc) = true ↔
      |pc| < 1/100) ∧
    is_prediction_correct Direction.HOLD
      (classify_actual_direction (3/1000)) (some (3/1000)) = true ∧
    is_prediction_correct Direction.HOLD
      (classify_actual_direction (1/50)) (some (1/50)) = false ∧
    classify_error_type Direction.HOLD (classify_actual_direction (1/50)) =
      "missed_opportunity" := by
  refine ⟨?_, ?_, ?_, ?_, ?_⟩
  · intro h
    simp [is_prediction_correct, h]
  · simp [is_prediction_correct]
  · have h : classify_actual_direction (3/1000) = Direction.HOLD := by
      norm_num [classify_actual_direction, abs]
    rw [h]
    norm_num [is_prediction_correct, abs]
  · have h : classify_actual_direction (1/50) = Direction.UP := by
      norm_num [classify_actual_direction, abs]
    rw [h]
    norm_num [is_prediction_correct, abs]
  · have h : classify_actual_direction (1/50) = Direction.UP := by
      norm_num [classify_actual_direction, abs]
    rw [h]
    rfl

/-- C8 witness: an UP prediction against an UP actual direction is marked
correct. -/
theorem C8_witness :
    is_prediction_correct Direction.UP Direction.UP (some (1/50)) = true :=
  ((C8_correctness_and_error_class Direction.UP Direction.UP (1/50)).1
    (by decide)).mpr rfl

/-- C10: the confidence-threshold step does not modify the threshold unless
the window has at least 5 records, one with predicted confidence >= 0.7 and
one with predicted confidence <= 0.3. -/
theorem C10_threshold_frame (cfg : StrategyConfig) (records : List LearnRecord)
    (h : ¬ (5 ≤ records.length ∧
      (∃ r ∈ records, 7/10 ≤ r.predicted_confidence) ∧
      (∃ r ∈ records, r.predicted_confidence ≤ 3/10))) :
    (adjust_confidence_threshold cfg records).confidence_threshold =
      cfg.confidence_threshold := by
  unfold adjust_confidence_threshold
  by_cases ha : records.length < 5
  · rw [if_pos ha]
  · rw [if_neg ha]
    have hb : ¬ (highConfTotal records > 0 ∧ lowConfTotal records > 0) := by
      rintro ⟨hbh, hbl⟩
      apply h
      refine ⟨not_lt.mp ha, ?_, ?_⟩
      · obtain ⟨r, hr, hp⟩ := List.countP_pos_iff.mp hbh
        exact ⟨r, hr, of_decide_eq_true hp⟩
      · obtain ⟨r, hr, hp⟩ := List.countP_pos_iff.mp hbl
        rw [Bool.and_eq_true] at hp
        exact ⟨r, hr, of_decide_eq_true hp.2⟩
    rw [if_neg hb]

/-- C10 witness: on an empty window the threshold is untouched. -/
theorem C10_witness :
    (adjust_confidence_threshold defaultStrategyConfig []).confidence_threshold =
      defaultStrategyConfig.confidence_threshold :=
  C10_threshold_frame defaultStrategyConfig [] (by simp)

/-- The ten-record adjustment window of the C3 scenario. -/
def c3Window : List LearnRecord := List.replicate 10 c3Record

/-- Helper: the sentiment-weight adjustment never touches the
indicator-weight mapping. -/
lemma adjust_sentiment_weight_keeps_weights (cfg : StrategyConfig)
    (records : List LearnRecord) :
    (adjust_sentiment_weight cfg records).indicator_weights =
      cfg.indicator_weights := by
  unfold adjust_sentiment_weight
  split
  · rfl
  · split
    · rfl
    · rfl

/-- Helper: the confidence-threshold adjustment never touches the
indicator-weight mapping. -/
lemma adjust_confidence_threshold_keeps_weights (cfg : StrategyConfig)
    (records : List LearnRecord) :
    (adjust_confidence_threshold cfg records).indicator_weights =
      cfg.indicator_weights := by
  unfold adjust_confidence_threshold
  split
  · rfl
  · split
    · split
      · rfl
      · split
        · rfl
        · rfl
    · rfl

/-- Helper: on the C3 window the adjuster raises the configuration's rsi
indicator weight to 0.3 (all ten records have actual direction HOLD, so the
rsi indicator counts as aligned in all of them, giving accuracy 1 and an
adjustment of +0.05 on the default weight 0.25). -/
lemma c3_adjusted_rsi_weight :
    getWeight (adjust_strategy defaultStrategyConfig
      c3Window).indicator_weights "rsi" 0 = 3/10 := by
  have hlen : ¬ c3Window.length < 10 := by norm_num [c3Window]
  unfold adjust_strategy
  rw [if_neg hlen, adjust_confidence_threshold_keeps_weights,
    adjust_sentiment_weight_keeps_weights]
  have hperf : collectIndicatorPerformance c3Window =
      [("rsi", { correct_count := 10, total_count := 10,
                 sum_abs_value := 250 })] := by
    show collectIndicatorPerformance
      [c3Record, c3Record, c3Record, c3Record, c3Record,
       c3Record, c3Record, c3Record, c3Record, c3Record] = _
    norm_num [collectIndicatorPerformance, bumpPerf,
      indicator_aligned_with_outcome, c3Record, abs]
  unfold adjust_indicator_weights
  rw [hperf, List.foldl_cons, List.foldl_nil]
  norm_num [indicatorWeightStep, setWeight, getWeight, defaultStrategyConfig]

/-- C3: the configuration produced by the StrategyAdjuster is not consumed
by prediction generation. A ten-record adjustment window raises the
configuration's rsi indicator weight from 0.25 to 0.3, yet the predictor
state that `generate_prediction`/`predict_next_movement` read (the
hard-coded `self.weights` and `self.confidence_threshold` of
`BTCPredictor.__init__`) is unchanged, so every subsequent prediction is
identical to what it was before the adjustment — the adjuster's changes
have no effect on the generator. -/
theorem C3_adjusted_config_not_consumed :
    getWeight (learning_update initSystemState
      c3Window).learning_config.indicator_weights "rsi" 0 = 3/10 ∧
    getWeight initSystemState.learning_config.indicator_weights "rsi" 0 = 1/4 ∧
    (learning_update initSystemState c3Window).predictor_weights.rsi = 1/4 ∧
    (learning_update initSystemState
      c3Window).predictor_confidence_threshold = 3/5 ∧
    ∀ ind, system_predict (learning_update initSystemState c3Window) ind =
      system_predict initSystemState ind :=
  ⟨c3_adjusted_rsi_weight, rfl, rfl, rfl, fun _ => rfl⟩

/-- The range invariant on the indicator-weight mapping: every weight lies
in [0.05, 0.5]. -/
def weightsInRange (ws : List (String × ℚ)) : Prop :=
  ∀ kv ∈ ws, 1/20 ≤ kv.2 ∧ kv.2 ≤ 1/2

/-- The clamped ranges of §3 of the spec: indicator weights in [0.05, 0.5],
sentiment weight in [0.1, 0.5], confidence threshold in [0.4, 0.8]. -/
def configInRange (cfg : StrategyConfig) : Prop :=
  weightsInRange cfg.indicator_weights ∧
  1/10 ≤ cfg.sentiment_weight ∧ cfg.sentiment_weight ≤ 1/2 ∧
  2/5 ≤ cfg.confidence_threshold ∧ cfg.confidence_threshold ≤ 4/5

/-- Helper: a dict assignment of an in-range value preserves the
weight-range invariant. -/
lemma setWeight_inRange (ws : List (String × ℚ)) (k : String) (v : ℚ)
    (hws : weightsInRange ws) (h1 : 1/20 ≤ v) (h2 : v ≤ 1/2) :
    weightsInRange (setWeight ws k v) := by
  unfold setWeight
  by_cases hmem : ws.any (fun kv => decide (kv.1 = k)) = true
  · rw [if_pos hmem]
    intro kv hkv
    simp only [List.mem_map] at hkv
    obtain ⟨kv0, hkv0, heq⟩ := hkv
    by_cases hk : kv0.1 = k
    · rw [if_pos hk] at heq
      rw [← heq]
      exact ⟨h1, h2⟩
    · rw [if_neg hk] at heq
      rw [← heq]
      exact hws kv0 hkv0
  · rw [if_neg hmem]
    intro kv hkv
    rcases List.mem_append.mp hkv with hin | hin
    · exact hws kv hin
    · rw [List.mem_singleton] at hin
      rw [hin]
      exact ⟨h1, h2⟩

/-- Helper: each step of the weight-update loop preserves the weight-range
invariant, because the written value is clamped to [0.05, 0.5]. -/
lemma indicatorWeightStep_inRange (lr : ℚ) (ws : List (String × ℚ))
    (p : String × IndicatorPerf) (h : weightsInRange ws) :
    weightsInRange (indicatorWeightStep lr ws p) := by
  unfold indicatorWeightStep
  by_cases hp : p.2.total_count > 0
  · rw [if_pos hp]
    exact setWeight_inRange _ _ _ h (le_max_left _ _)
      (max_le (by norm_num) (min_le_left _ _))
  · rw [if_neg hp]
    exact h

/-- Helper: the whole weight-update loop preserves the weight-range
invariant. -/
lemma foldl_indicatorWeightStep_inRange (lr : ℚ)
    (perf : List (String × IndicatorPerf)) (ws0 : List (String × ℚ))
    (h : weightsInRange ws0) :
    weightsInRange (perf.foldl (indicatorWeightStep lr) ws0) := by
  induction perf generalizing ws0 with
  | nil => exact h
  | cons p ps ih =>
    rw [List.foldl_cons]
    exact ih _ (indicatorWeightStep_inRange lr ws0 p h)

/-- Helper: the target sentiment weight stays in [0.1, 0.5] when the current
weight is in range and the learning rate is nonnegative. -/
lemma sentimentTarget_inRange (cur lr f : ℚ) (h1 : 1/10 ≤ cur)
    (h2 : cur ≤ 1/2) (hlr : 0 ≤ lr) :
    1/10 ≤ sentimentTarget cur lr f ∧ sentimentTarget cur lr f ≤ 1/2 := by
  unfold sentimentTarget
  by_cases hf1 : f > 3/5
  · rw [if_pos hf1]
    have hterm : 0 ≤ (f - 1/2) * lr := mul_nonneg (by linarith) hlr
    exact ⟨le_min (by norm_num) (by linarith), min_le_left _ _⟩
  · rw [if_neg hf1]
    by_cases hf2 : f < 2/5
    · rw [if_pos hf2]
      have hterm : 0 ≤ (1/2 - f) * lr := mul_nonneg (by linarith) hlr
      exact ⟨le_max_left _ _, max_le (by norm_num) (by linarith)⟩
    · rw [if_neg hf2]
      exact ⟨h1, h2⟩

/-- Helper: the indicator-weight adjustment preserves the range invariant
and does not touch the other configuration fields. -/
lemma adjust_indicator_weights_inv (cfg : StrategyConfig)
    (records : List LearnRecord) (h : weightsInRange cfg.indicator_weights) :
    weightsInRange (adjust_indicator_weights cfg records).indicator_weights ∧
    (adjust_indicator_weights cfg records).sentiment_weight =
      cfg.sentiment_weight ∧
    (adjust_indicator_weights cfg records).confidence_threshold =
      cfg.confidence_threshold ∧
    (adjust_indicator_weights cfg records).learning_rate = cfg.learning_rate :=
  ⟨foldl_indicatorWeightStep_inRange _ _ _ h, rfl, rfl, rfl⟩

/-- Helper: the sentiment-weight adjustment keeps the weight in [0.1, 0.5]
and does not touch the other configuration fields. -/
lemma adjust_sentiment_weight_inv (cfg : StrategyConfig)
    (records : List LearnRecord) (h1 : 1/10 ≤ cfg.sentiment_weight)
    (h2 : cfg.sentiment_weight ≤ 1/2) (hlr : 0 ≤ cfg.learning_rate) :
    1/10 ≤ (adjust_sentiment_weight cfg records).sentiment_weight ∧
    (adjust_sentiment_weight cfg records).sentiment_weight ≤ 1/2 ∧
    (adjust_sentiment_weight cfg records).indicator_weights =
      cfg.indicator_weights ∧
    (adjust_sentiment_weight cfg records).confidence_threshold =
      cfg.confidence_threshold ∧
    (adjust_sentiment_weight cfg records).learning_rate = cfg.learning_rate := by
  unfold adjust_sentiment_weight
  by_cases hr : records = []
  · rw [if_pos hr]
    exact ⟨h1, h2, rfl, rfl, rfl⟩
  · rw [if_neg hr]
    by_cases hc : (sentimentHelpfulCounts records).2 > 0
    · rw [if_pos hc]
      have ht := sentimentTarget_inRange cfg.sentiment_weight cfg.learning_rate
        (((sentimentHelpfulCounts records).1 : ℚ) /
          ((sentimentHelpfulCounts records).2 : ℚ)) h1 h2 hlr
      exact ⟨ht.1, ht.2, rfl, rfl, rfl⟩
    · rw [if_neg hc]
      exact ⟨h1, h2, rfl, rfl, rfl⟩

/-- Helper: the confidence-threshold adjustment keeps the threshold in
[0.4, 0.8] and does not touch the other configuration fields. -/
lemma adjust_confidence_threshold_inv (cfg : StrategyConfig)
    (records : List LearnRecord) (h1 : 2/5 ≤ cfg.confidence_threshold)
    (h2 : cfg.confidence_threshold ≤ 4/5) :
    2/5 ≤ (adjust_confidence_threshold cfg records).confidence_threshold ∧
    (adjust_confidence_threshold cfg records).confidence_threshold ≤ 4/5 ∧
    (adjust_confidence_threshold cfg records).indicator_weights =
      cfg.indicator_weights ∧
    (adjust_confidence_threshold cfg records).sentiment_weight =
      cfg.sentiment_weight ∧
    (adjust_confidence_threshold cfg records).learning_rate =
      cfg.learning_rate := by
  unfold adjust_confidence_threshold
  by_cases ha : records.length < 5
  · rw [if_pos ha]
    exact ⟨h1, h2, rfl, rfl, rfl⟩
  · rw [if_neg ha]
    by_cases hb : highConfTotal records > 0 ∧ lowConfTotal records > 0
    · rw [if_pos hb]
      by_cases hc : (lowConfCorrect records : ℚ) / (lowConfTotal records : ℚ) >
            (highConfCorrect records : ℚ) / (highConfTotal records : ℚ) ∧
          (lowConfCorrect records : ℚ) / (lowConfTotal records : ℚ) > 3/5
      · rw [if_pos hc]
        exact ⟨le_max_left _ _, max_le (by norm_num) (by linarith),
          rfl, rfl, rfl⟩
      · rw [if_neg hc]
        by_cases hd : (highConfCorrect records : ℚ) /
            (highConfTotal records : ℚ) < 3/5
        · rw [if_pos hd]
          exact ⟨le_min (by norm_num) (by linarith), min_le_left _ _,
            rfl, rfl, rfl⟩
        · rw [if_neg hd]
          exact ⟨h1, h2, rfl, rfl, rfl⟩
    · rw [if_neg hb]
      exact ⟨h1, h2, rfl, rfl, rfl⟩

/-- Helper: one full adjustment cycle preserves the range invariant and the
learning rate. -/
lemma adjust_strategy_inv (cfg : StrategyConfig) (records : List LearnRecord)
    (h : configInRange cfg) (hlr : 0 ≤ cfg.learning_rate) :
    configInRange (adjust_strategy cfg records) ∧
    (adjust_strategy cfg records).learning_rate = cfg.learning_rate := by
  unfold adjust_strategy
  by_cases hn : records.length < 10
  · rw [if_pos hn]
    exact ⟨h, rfl⟩
  · rw [if_neg hn]
    obtain ⟨hw, hs1, hs2, ht1, ht2⟩ := h
    have I1 := adjust_indicator_weights_inv cfg records hw
    have I2 := adjust_sentiment_weight_inv (adjust_indicator_weights cfg records)
      records (by rw [I1.2.1]; exact hs1) (by rw [I1.2.1]; exact hs2)
      (by rw [I1.2.2.2]; exact hlr)
    have I3 := adjust_confidence_threshold_inv
      (adjust_sentiment_weight (adjust_indicator_weights cfg records) records)
      records (by rw [I2.2.2.2.1, I1.2.2.1]; exact ht1)
      (by rw [I2.2.2.2.1, I1.2.2.1]; exact ht2)
    refine ⟨⟨?_, ?_, ?_, I3.1, I3.2.1⟩, ?_⟩
    · rw [I3.2.2.1, I2.2.2.1]
      exact I1.1
    · rw [I3.2.2.2.1]
      exact I2.1
    · rw [I3.2.2.2.1]
      exact I2.2.1
    · rw [I3.2.2.2.2, I2.2.2.2.2, I1.2.2.2]

/-- Helper: the range invariant holds after any sequence of adjustment
cycles, given it holds initially and the learning rate is nonnegative. -/
lemma foldl_adjust_strategy_inv (windows : List (List LearnRecord))
    (cfg : StrategyConfig) (h : configInRange cfg)
    (hlr : 0 ≤ cfg.learning_rate) :
    configInRange (windows.foldl adjust_strategy cfg) := by
  induction windows generalizing cfg with
  | nil => exact h
  | cons w ws ih =>
    rw [List.foldl_cons]
    have hstep := adjust_strategy_inv cfg w h hlr
    exact ih _ hstep.1 (by rw [hstep.2]; exact hlr)

/-- C4: starting from the default configuration, after any finite sequence
of StrategyAdjuster adjustment cycles over arbitrary windows of analyzed
records, every indicator weight lies in [0.05, 0.5], the sentiment weight
lies in [0.1, 0.5], and the confidence threshold lies in [0.4, 0.8]. -/
theorem C4_clamp_invariant (windows : List (List LearnRecord)) :
    configInRange (windows.foldl adjust_strategy defaultStrategyConfig) :=
  foldl_adjust_strategy_inv windows defaultStrategyConfig
    (by refine ⟨?_, by norm_num [defaultStrategyConfig], by norm_num [defaultStrategyConfig],
          by norm_num [defaultStrategyConfig], by norm_num [defaultStrategyConfig]⟩
        intro kv hkv
        fin_cases hkv <;> norm_num [defaultStrategyConfig])
    (by norm_num [defaultStrategyConfig])

/-- C4 witness: after one adjustment cycle over the ten-record window the
confidence threshold is still within [0.4, 0.8]. -/
theorem C4_witness :
    2/5 ≤ ([List.replicate 10 c3Record].foldl adjust_strategy
      defaultStrategyConfig).confidence_threshold :=
  (C4_clamp_invariant [List.replicate 10 c3Record]).2.2.2.1

end BTCPred
